import Mathlib

/-!
Verification development for the SimuVerse agent server (`src/main.py`):
an in-memory session store keyed by agent identifier, a prompt builder,
a response validator with single-fallback substitution, a tag-based action
parser, and the `/generate` endpoint tying them together, plus the global
reset and log-clearing administrative operations.

The Python string primitives used by the server (`strip`, `lower`,
`startswith`, `split("\n")`, `splitlines`, `split(":", 1)`, `capitalize`)
are modelled over Lean `String` via their character lists, restricted to
the ASCII range (the server only ever manipulates ASCII protocol tags).
The language-model call is external: the model's raw output is passed to
the endpoint as an explicit argument.  Wall-clock timestamps on log
entries are not modelled.
-/

/-- Whitespace characters recognised by Python `str.strip` (ASCII range). -/
def isPySpace (c : Char) : Bool :=
  c = ' ' || c = '\t' || c = '\n' || c = '\r' || c = '\x0b' || c = '\x0c'

/-- Python `str.strip` on a character list: drop leading and trailing whitespace. -/
def stripChars (l : List Char) : List Char :=
  ((l.dropWhile isPySpace).reverse.dropWhile isPySpace).reverse

/-- Python `str.strip`. -/
def pyStrip (s : String) : String := ⟨stripChars s.data⟩

/-- Python `str.lower` (ASCII case mapping). -/
def pyLower (s : String) : String := ⟨s.data.map Char.toLower⟩

/-- Python `str.startswith`. -/
def pyStartswith (s pre : String) : Bool := pre.data.isPrefixOf s.data

/-- Helper for `pySplitNL`: split a character list at each newline character.
Mirrors Python `split("\n")`: always yields at least one (possibly empty) piece. -/
def splitNLChars : List Char → List Char → List (List Char)
  | [], acc => [acc.reverse]
  | c :: rest, acc =>
    if c = '\n' then acc.reverse :: splitNLChars rest []
    else splitNLChars rest (c :: acc)

/-- Python `s.split("\n")`. -/
def pySplitNL (s : String) : List String :=
  (splitNLChars s.data []).map fun l => ⟨l⟩

/-- Line-boundary characters recognised by Python `str.splitlines`. -/
def isLineBreak (c : Char) : Bool :=
  c = '\n' || c = '\r' || c = '\x0b' || c = '\x0c' || c = '\x1c' ||
  c = '\x1d' || c = '\x1e' || c = '\x85' || c = '\u2028' || c = '\u2029'

/-- Helper for `pySplitlines`: Python `str.splitlines` semantics — `\r\n` counts
as one boundary, a trailing boundary produces no trailing empty line, and the
empty string yields no lines. -/
def splitlinesChars : List Char → List Char → List (List Char)
  | [], acc => if acc.isEmpty then [] else [acc.reverse]
  | '\r' :: '\n' :: rest, acc => acc.reverse :: splitlinesChars rest []
  | c :: rest, acc =>
    if isLineBreak c then acc.reverse :: splitlinesChars rest []
    else splitlinesChars rest (c :: acc)

/-- Python `str.splitlines`. -/
def pySplitlines (s : String) : List String :=
  (splitlinesChars s.data []).map fun l => ⟨l⟩

/-- Remainder of a character list after its first colon (empty if no colon). -/
def afterFirstColon : List Char → List Char
  | [] => []
  | c :: rest => if c = ':' then rest else afterFirstColon rest

/-- Python `line.split(":", 1)[1]`.  Call sites in the server only reach this
when the line is known to contain a colon; on a colon-free line this model
returns the empty string. -/
def pySplitColonRest (s : String) : String := ⟨afterFirstColon s.data⟩

/-- Python `str.capitalize`: upper-case the first character, lower-case the rest. -/
def pyCapitalize (s : String) : String :=
  match s.data with
  | [] => ""
  | c :: rest => ⟨c.toUpper :: rest.map Char.toLower⟩

/-- A conversation message: `{"role": ..., "content": ...}` in `main.py`. -/
structure Message where
  role : String
  content : String
  deriving DecidableEq

/-- A log entry as built by `log_event` in `main.py` (timestamp not modelled);
`details` is the dict of string-valued detail fields. -/
structure LogEntry where
  eventType : String
  details : List (String × String)
  deriving DecidableEq

/-- The server's global mutable state: the `sessions` dict (agent id to message
list) and the `logs` dict (agent id to log entries).  A missing dict key is
`none` for sessions and `[]` for logs (`log_event` inserts `[]` on first use,
which is observationally the same). -/
structure ServerState where
  sessions : String → Option (List Message)
  logs : String → List LogEntry

/-- The state at process start: no sessions, no logs. -/
def initialState : ServerState :=
  { sessions := fun _ => none, logs := fun _ => [] }

/-- `log_event` from `main.py`: append one entry to the agent's log list. -/
def log_event (st : ServerState) (agent_id : String) (event_type : String)
    (details : List (String × String)) : ServerState :=
  { st with
    logs := fun a =>
      if a = agent_id then st.logs a ++ [⟨event_type, details⟩] else st.logs a }

/-- Overwrite one agent's stored session.  In `main.py` the session list is
mutated in place through the alias returned by `get_or_create_session`; in this
pure model each in-place `append` becomes an explicit store of the grown list. -/
def setSession (st : ServerState) (agent_id : String) (conv : List Message) :
    ServerState :=
  { st with
    sessions := fun a => if a = agent_id then some conv else st.sessions a }

/-- `get_or_create_session` from `main.py`: return the existing session, or
create one holding a single system message with the supplied prompt.  Returns
the session together with the (possibly updated) state. -/
def get_or_create_session (st : ServerState) (agent_id : String)
    (system_prompt : String) : List Message × ServerState :=
  match st.sessions agent_id with
  | some s => (s, st)
  | none =>
    let s : List Message := [⟨"system", system_prompt⟩]
    (s, setSession st agent_id s)

/-- The fixed trailer instruction appended by `build_prompt`. -/
def trailerInstruction : String :=
  "Remember: Provide at least one sentence of reasoning and end with a final line that starts with MOVE:, NOTHING:, or CONVERSE: (with no extra text)."

/-- `build_prompt` from `main.py`: render every message as
`"<Role capitalized>: <content>"`, append the `"Assistant:"` cue and the fixed
instruction line, and join everything with newlines. -/
def build_prompt (conversation : List Message) : String :=
  String.intercalate "\n"
    ((conversation.map fun m => pyCapitalize m.role ++ ": " ++ m.content) ++
      ["Assistant:", trailerInstruction])

/-- The fallback substituted when the model output has fewer than two lines
(`main.py` lines 221-224). -/
def fallbackInsufficient : String :=
  "Your response is invalid. You must provide at least one sentence of reasoning.\nNOTHING: do nothing"

/-- The fallback substituted when the final line carries no action tag
(`main.py` lines 234-237). -/
def fallbackMalformed : String :=
  "Your final line did not start with MOVE:, NOTHING:, or CONVERSE:. Invalid response.\nNOTHING: do nothing"

/-- The three accepted final-line tags (`valid_starts` in `main.py`). -/
def valid_starts : List String := ["move:", "nothing:", "converse:"]

/-- Outcome of the validation step: the accepted (or substituted) text, and
the rejection reason when validation failed (`none` when accepted). -/
structure ValidateResult where
  text : String
  failure : Option String
  deriving DecidableEq

/-- The response-validation step of `generate_response` (`main.py` lines
219-242): split the stripped text into lines; with fewer than two lines
substitute the "insufficient reasoning" fallback; otherwise accept exactly when
the stripped, lower-cased last line starts with one of the three tags, else
substitute the "malformed final line" fallback. -/
def validate (raw : String) : ValidateResult :=
  let lines := pySplitNL (pyStrip raw)
  if lines.length < 2 then
    ⟨fallbackInsufficient, some "Not enough lines"⟩
  else
    let final_line := pyLower (pyStrip (lines.getLastD ""))
    if valid_starts.any (fun x => pyStartswith final_line x) then
      ⟨raw, none⟩
    else
      ⟨fallbackMalformed, some "Invalid final line"⟩

/-- The action-parsing loop of `generate_response` (`main.py` lines 246-260):
scan lines top to bottom; the first line whose stripped lower-cased form starts
with a tag decides the action, taking for `move`/`converse` the text after the
first colon of the original line, stripped; no match yields `("none", "")`. -/
def parseActionLines : List String → String × String
  | [] => ("none", "")
  | line :: rest =>
    let l := pyLower (pyStrip line)
    if pyStartswith l "move:" then ("move", pyStrip (pySplitColonRest line))
    else if pyStartswith l "nothing:" then ("nothing", "")
    else if pyStartswith l "converse:" then
      ("converse", pyStrip (pySplitColonRest line))
    else parseActionLines rest

/-- Action parsing of a whole assistant text: `splitlines` then the scan loop. -/
def parseAction (text : String) : String × String :=
  parseActionLines (pySplitlines text)

/-- The request body of `/generate` (`GenerateRequest` in `main.py`). -/
structure GenerateRequest where
  agent_id : String
  user_input : String
  system_prompt : String
  deriving DecidableEq

/-- The response body of `/generate` (`GenerateResponse` in `main.py`). -/
structure GenerateResponse where
  agent_id : String
  text : String
  action : String
  location : String
  deriving DecidableEq

/-- `generate_response` from `main.py` (lines 198-274), with the language
model's raw output supplied as the explicit argument `llm_output`: log the
input, fetch or create the session, append the user message, build the prompt,
log it, validate the model output (logging a failure on rejection), append the
assistant message, parse the action, log the response, and return the response
body (with `location` lower-cased) together with the final state. -/
def generate_response (st : ServerState) (data : GenerateRequest)
    (llm_output : String) : GenerateResponse × ServerState :=
  let st1 := log_event st data.agent_id "user_input"
    [("input", data.user_input), ("system_prompt", data.system_prompt)]
  let conv0 := (get_or_create_session st1 data.agent_id data.system_prompt).1
  let st2 := (get_or_create_session st1 data.agent_id data.system_prompt).2
  let conv1 := conv0 ++ [⟨"user", data.user_input⟩]
  let st3 := setSession st2 data.agent_id conv1
  let prompt := build_prompt conv1
  let st4 := log_event st3 data.agent_id "generating_response" [("prompt", prompt)]
  let v := validate llm_output
  let st5 :=
    match v.failure with
    | some reason =>
        log_event st4 data.agent_id "validation_failure"
          [("reason", reason), ("response", v.text)]
    | none => st4
  let conv2 := conv1 ++ [⟨"assistant", v.text⟩]
  let st6 := setSession st5 data.agent_id conv2
  let pa := parseAction v.text
  let st7 := log_event st6 data.agent_id "response"
    [("text", v.text), ("action", pa.1), ("location", pa.2)]
  (⟨data.agent_id, v.text, pa.1, pyLower pa.2⟩, st7)

/-- `reset_system` from `main.py`: clear all sessions and all logs. -/
def reset_system (_st : ServerState) : ServerState :=
  { sessions := fun _ => none, logs := fun _ => [] }

/-- `clear_logs` from `main.py`: clear all logs, leaving sessions untouched. -/
def clear_logs (st : ServerState) : ServerState :=
  { st with logs := fun _ => [] }

/-- Modelled from the spec: the optional `task` argument of `getOrCreate`
(spec §4.1, request field `task?` of §6).  The `get_or_create_session` in
`src/main.py` has no task parameter and `GenerateRequest` no `task` field; per
the spec the task description is appended to the system prompt as
`"\nCurrent Task: " + task`, only when `task` is non-empty, and the arguments
are ignored when a session already exists. -/
def get_or_create_session_task (st : ServerState) (agent_id : String)
    (system_prompt : String) (task : String) : List Message × ServerState :=
  match st.sessions agent_id with
  | some s => (s, st)
  | none =>
    let content :=
      if task = "" then system_prompt
      else system_prompt ++ "\nCurrent Task: " ++ task
    let s : List Message := [⟨"system", content⟩]
    (s, setSession st agent_id s)

/-- Modelled from the spec: the provenance-tag convention of a Forwarded
Message (spec §3).  The spec fixes only that the content embeds a provenance
marker identifying the sending agent followed by the forwarded text verbatim;
the concrete marker shape is left open, so this model uses a bracketed
`[From <sender>]: ` prefix. -/
def forwardContent (source : String) (text : String) : String :=
  "[From " ++ source ++ "]: " ++ text

/-- Modelled from the spec: the Conversation Router (spec §4.6), absent from
the `src/main.py` revision, which parses `converse` actions but contains no
forwarding code.  Ensures a session exists for the target (an empty one, with
no system prompt, if absent), appends a `user`-role forwarded message carrying
the provenance tag and the sender's full assistant text, and logs a
`conversation_forwarded` event on the source agent's log. -/
def route (st : ServerState) (source : String) (target : String)
    (text : String) : ServerState :=
  let existing :=
    match st.sessions target with
    | some s => s
    | none => []
  let st1 := setSession st target (existing ++ [⟨"user", forwardContent source text⟩])
  log_event st1 source "conversation_forwarded" [("target", target), ("text", text)]

/-- Modelled from the spec: predicate distinguishing a Forwarded Message from
an ordinary turn by the content-prefix convention (spec §3, §4.2). -/
def isForwarded (m : Message) : Bool :=
  m.role == "user" && pyStartswith m.content "[From "

/-- Rendering of an ordinary (non-forwarded) message in a prompt:
`"<Role capitalized>: <content>"`. -/
def renderMsg (m : Message) : String :=
  pyCapitalize m.role ++ ": " ++ m.content

/-- Modelled from the spec: single-pass partition of a session into forwarded
messages and all other messages, each group keeping its relative order
(spec §4.2). -/
def partitionFwd : List Message → List Message × List Message
  | [] => ([], [])
  | m :: rest =>
    let p := partitionFwd rest
    if isForwarded m then (m :: p.1, p.2) else (p.1, m :: p.2)

/-- Modelled from the spec: the forwarded-aware Prompt Builder (spec §4.2),
absent from `src/main.py`, whose `build_prompt` renders all messages uniformly
with no forwarded-message grouping.  Forwarded messages come first, exactly as
stored, under a header line; then the remaining messages rendered as
`"<Role capitalized>: <content>"`; then the `"Assistant:"` cue and the fixed
instruction line; all joined by newlines. -/
def build_prompt_spec (conversation : List Message) : String :=
  let p := partitionFwd conversation
  let fwdBlock :=
    if p.1.isEmpty then []
    else "Conversation Context:" :: p.1.map (fun m => m.content)
  String.intercalate "\n"
    (fwdBlock ++ p.2.map renderMsg ++ ["Assistant:", trailerInstruction])

/-- The conversation that `generate_response` finds (or creates) for the
requesting agent before appending the new user turn: the stored session, or a
fresh one holding only the system message. -/
def baseConv (st : ServerState) (data : GenerateRequest) : List Message :=
  match st.sessions data.agent_id with
  | some s => s
  | none => [⟨"system", data.system_prompt⟩]

/-- A line carries an action tag when its stripped lower-cased form starts
with `move:`, `nothing:` or `converse:`. -/
def matchesTag (line : String) : Bool :=
  pyStartswith (pyLower (pyStrip line)) "move:" ||
  pyStartswith (pyLower (pyStrip line)) "nothing:" ||
  pyStartswith (pyLower (pyStrip line)) "converse:"

/-- The action and target determined by one tagged line: the matching tag
names the action and, for `move`/`converse`, the target is the remainder of
the original line after its first colon, stripped. -/
def interpLine (line : String) : String × String :=
  if pyStartswith (pyLower (pyStrip line)) "move:" then
    ("move", pyStrip (pySplitColonRest line))
  else if pyStartswith (pyLower (pyStrip line)) "nothing:" then
    ("nothing", "")
  else ("converse", pyStrip (pySplitColonRest line))

/-- A list of messages consisting of consecutive (`user`, `assistant`) pairs. -/
def altPairs : List Message → Bool
  | [] => true
  | [_] => false
  | u :: a :: rest => u.role == "user" && a.role == "assistant" && altPairs rest

/-- Well-formed session shape in the `src/main.py` server: a `system` message
followed by alternating (`user`, `assistant`) pairs. -/
def sessionShape (s : List Message) : Bool :=
  match s with
  | [] => false
  | m :: rest => m.role == "system" && altPairs rest

/-- The server states reachable from process start through the three
state-changing entry points of `main.py`: `/generate`, `/reset` and
`/clear_logs`. -/
inductive Reachable : ServerState → Prop
  | init : Reachable initialState
  | gen (st : ServerState) (data : GenerateRequest) (out : String) :
      Reachable st → Reachable (generate_response st data out).2
  | reset (st : ServerState) : Reachable st → Reachable (reset_system st)
  | clear (st : ServerState) : Reachable st → Reachable (clear_logs st)

/-- Sessions after `generate_response`: the requesting agent's session becomes
the base conversation extended by the new user turn and the (validated)
assistant turn; every other agent's session is untouched. -/
theorem generate_response_sessions (st : ServerState) (data : GenerateRequest)
    (out : String) (a : String) :
    (generate_response st data out).2.sessions a =
      if a = data.agent_id then
        some (baseConv st data ++
          [⟨"user", data.user_input⟩, ⟨"assistant", (validate out).text⟩])
      else st.sessions a := by
  unfold generate_response baseConv get_or_create_session setSession log_event
  cases hs : st.sessions data.agent_id <;>
    cases hv : (validate out).failure <;>
      simp [hs, hv] <;> split <;> simp_all

/-- The response body produced by `generate_response`. -/
theorem generate_response_fst (st : ServerState) (data : GenerateRequest)
    (out : String) :
    (generate_response st data out).1 =
      ⟨data.agent_id, (validate out).text, (parseAction (validate out).text).1,
        pyLower (parseAction (validate out).text).2⟩ := by
  unfold generate_response
  cases hv : (validate out).failure <;> simp [hv]

/-- Logs of the requesting agent after `generate_response`: the prior entries,
then `user_input` and `generating_response`, then a `validation_failure`
entry exactly when validation rejected, then the final `response` entry. -/
theorem generate_response_logs_agent (st : ServerState) (data : GenerateRequest)
    (out : String) :
    (generate_response st data out).2.logs data.agent_id =
      st.logs data.agent_id ++
        [⟨"user_input",
            [("input", data.user_input), ("system_prompt", data.system_prompt)]⟩,
         ⟨"generating_response",
            [("prompt", build_prompt (baseConv st data ++ [⟨"user", data.user_input⟩]))]⟩] ++
        (match (validate out).failure with
         | some r =>
             [⟨"validation_failure", [("reason", r), ("response", (validate out).text)]⟩]
         | none => []) ++
        [⟨"response",
            [("text", (validate out).text),
             ("action", (parseAction (validate out).text).1),
             ("location", (parseAction (validate out).text).2)]⟩] := by
  unfold generate_response baseConv get_or_create_session setSession log_event
  cases hs : st.sessions data.agent_id <;>
    cases hv : (validate out).failure <;> simp [hs, hv]

/-- Logs of every other agent are untouched by `generate_response`. -/
theorem generate_response_logs_other (st : ServerState) (data : GenerateRequest)
    (out : String) (a : String) (h : a ≠ data.agent_id) :
    (generate_response st data out).2.logs a = st.logs a := by
  unfold generate_response get_or_create_session setSession log_event
  cases hs : st.sessions data.agent_id <;>
    cases hv : (validate out).failure <;> simp [hs, hv, h]

/-- C1: for raw model text that, after stripping the whole text, splits into at
least two lines and whose stripped lower-cased last line starts with `move:`,
`nothing:` or `converse:`, the validation step accepts the raw text unchanged —
`validate` returns the raw text with no failure, the `/generate` response text
and the stored assistant message equal the raw text, and no
`validation_failure` log entry is added. -/
theorem validator_accepts_wellformed_text (st : ServerState)
    (data : GenerateRequest) (raw : String)
    (h2 : 2 ≤ (pySplitNL (pyStrip raw)).length)
    (htag : valid_starts.any
      (fun x => pyStartswith
        (pyLower (pyStrip ((pySplitNL (pyStrip raw)).getLastD ""))) x) = true) :
    validate raw = ⟨raw, none⟩ ∧
    (generate_response st data raw).1.text = raw ∧
    (generate_response st data raw).2.sessions data.agent_id =
      some (baseConv st data ++ [⟨"user", data.user_input⟩, ⟨"assistant", raw⟩]) ∧
    ((generate_response st data raw).2.logs data.agent_id).countP
        (fun e => e.eventType == "validation_failure") =
      (st.logs data.agent_id).countP
        (fun e => e.eventType == "validation_failure") := by
  have hv : validate raw = ⟨raw, none⟩ := by
    simp only [validate]
    rw [if_neg (by omega), if_pos htag]
  refine ⟨hv, ?_, ?_, ?_⟩
  · rw [generate_response_fst, hv]
  · rw [generate_response_sessions, hv]
    simp
  · rw [generate_response_logs_agent, hv]
    simp [List.countP_append]

/-- Witness for `validator_accepts_wellformed_text` at a concrete input. -/
theorem validator_accepts_wellformed_text_witness :
    2 ≤ (pySplitNL (pyStrip "I think.\nMOVE: Library")).length ∧
    validate "I think.\nMOVE: Library" = ⟨"I think.\nMOVE: Library", none⟩ :=
  ⟨by decide,
   (validator_accepts_wellformed_text initialState ⟨"A", "hi", "sys"⟩
      "I think.\nMOVE: Library" (by decide) (by decide)).1⟩

/-- C2: for input text with fewer than two lines after stripping the whole
text (equivalently, fewer than two non-empty lines), validation never returns
the raw text: it substitutes the fixed "insufficient reasoning" fallback — a
fixed explanatory sentence followed by the line `NOTHING: do nothing` — and the
`/generate` handler records one `validation_failure` log entry for the agent. -/
theorem validator_insufficient_reasoning_fallback (st : ServerState)
    (data : GenerateRequest) (raw : String)
    (h : (pySplitNL (pyStrip raw)).length < 2) :
    validate raw = ⟨fallbackInsufficient, some "Not enough lines"⟩ ∧
    (validate raw).text ≠ raw ∧
    pySplitNL fallbackInsufficient =
      ["Your response is invalid. You must provide at least one sentence of reasoning.",
       "NOTHING: do nothing"] ∧
    ((generate_response st data raw).2.logs data.agent_id).countP
        (fun e => e.eventType == "validation_failure") =
      (st.logs data.agent_id).countP
        (fun e => e.eventType == "validation_failure") + 1 := by
  have hv : validate raw = ⟨fallbackInsufficient, some "Not enough lines"⟩ := by
    simp only [validate]
    rw [if_pos h]
  refine ⟨hv, ?_, by decide, ?_⟩
  · rw [hv]
    intro heq
    rw [← heq] at h
    exact absurd h (by decide)
  · rw [generate_response_logs_agent, hv]
    simp [List.countP_append]

/-- Witness for `validator_insufficient_reasoning_fallback` at a concrete
single-line input. -/
theorem validator_insufficient_reasoning_fallback_witness :
    (pySplitNL (pyStrip "short")).length < 2 ∧
    validate "short" = ⟨fallbackInsufficient, some "Not enough lines"⟩ :=
  ⟨by decide,
   (validator_insufficient_reasoning_fallback initialState ⟨"A", "hi", "sys"⟩
      "short" (by decide)).1⟩

/-- C3: for an agent that already holds a session, `get_or_create_session`
with any (possibly different) system prompt returns the existing session and
leaves the state — in particular the stored session and its first message —
unchanged; the supplied arguments are ignored (first-write-wins). -/
theorem get_or_create_session_first_write_wins (st : ServerState)
    (agent_id system_prompt : String) (s : List Message)
    (h : st.sessions agent_id = some s) :
    (get_or_create_session st agent_id system_prompt).1 = s ∧
    (get_or_create_session st agent_id system_prompt).2 = st ∧
    (get_or_create_session st agent_id system_prompt).2.sessions agent_id =
      some s := by
  unfold get_or_create_session
  rw [h]
  exact ⟨rfl, rfl, h⟩

/-- Witness for `get_or_create_session_first_write_wins`: a second call with a
different prompt on an agent created with prompt "persona". -/
theorem get_or_create_session_first_write_wins_witness :
    (get_or_create_session initialState "A" "persona").2.sessions "A" =
      some [⟨"system", "persona"⟩] ∧
    (get_or_create_session (get_or_create_session initialState "A" "persona").2
        "A" "other prompt").2.sessions "A" = some [⟨"system", "persona"⟩] :=
  ⟨by decide,
   (get_or_create_session_first_write_wins
      (get_or_create_session initialState "A" "persona").2 "A" "other prompt"
      [⟨"system", "persona"⟩] (by decide)).2.2⟩

/-- C4: for an agent never seen before, `get_or_create_session` creates a
session holding exactly one `system` message whose content is the supplied
prompt; in the spec-modelled task-aware variant the task description
`"\nCurrent Task: " + task` is appended if and only if the task is non-empty. -/
theorem get_or_create_session_fresh_agent (st : ServerState)
    (agent_id system_prompt task : String) (h : st.sessions agent_id = none) :
    (get_or_create_session st agent_id system_prompt).2.sessions agent_id =
      some [⟨"system", system_prompt⟩] ∧
    (get_or_create_session_task st agent_id system_prompt task).2.sessions
        agent_id =
      some [⟨"system",
        if task = "" then system_prompt
        else system_prompt ++ "\nCurrent Task: " ++ task⟩] ∧
    (get_or_create_session_task st agent_id system_prompt task).1 =
      [⟨"system",
        if task = "" then system_prompt
        else system_prompt ++ "\nCurrent Task: " ++ task⟩] := by
  unfold get_or_create_session get_or_create_session_task setSession
  rw [h]
  simp

/-- Witness for `get_or_create_session_fresh_agent` with a non-empty task. -/
theorem get_or_create_session_fresh_agent_witness :
    initialState.sessions "B" = none ∧
    (get_or_create_session_task initialState "B" "persona" "farm").2.sessions
        "B" = some [⟨"system", "persona\nCurrent Task: farm"⟩] :=
  ⟨by decide,
   by
     have h := (get_or_create_session_fresh_agent initialState "B" "persona"
        "farm" (by decide)).2.1
     simpa using h⟩

/-- C5: when the parsed action of an assistant text is `converse` with a
non-empty target, routing (spec-modelled, absent from `src/main.py`) leaves the
target agent with a session — created without a system prompt if absent — that
has gained exactly one new `user`-role message embedding the provenance tag of
the source agent and the sender's full text, while the source agent's session
is unaffected by the routing itself. -/
theorem route_converse_appends_to_target (st : ServerState)
    (source target text : String)
    (_hparse : parseAction text = ("converse", target))
    (_htgt : target ≠ "") (hne : source ≠ target) :
    (route st source target text).sessions target =
      some ((match st.sessions target with | some s => s | none => []) ++
        [⟨"user", forwardContent source text⟩]) ∧
    (route st source target text).sessions source = st.sessions source ∧
    (st.sessions target = none →
      (route st source target text).sessions target =
        some [⟨"user", forwardContent source text⟩]) := by
  unfold route setSession log_event
  cases hs : st.sessions target <;> simp [hs, hne]

/-- Witness for `route_converse_appends_to_target`: agent "Alice" converses
with previously unseen agent "Bob". -/
theorem route_converse_appends_to_target_witness :
    parseAction "Hi there.\nCONVERSE: Bob" = ("converse", "Bob") ∧
    (route initialState "Alice" "Bob" "Hi there.\nCONVERSE: Bob").sessions
        "Bob" =
      some [⟨"user", forwardContent "Alice" "Hi there.\nCONVERSE: Bob"⟩] :=
  ⟨by decide,
   (route_converse_appends_to_target initialState "Alice" "Bob"
      "Hi there.\nCONVERSE: Bob" (by decide) (by decide) (by decide)).2.2
     (by decide)⟩

/-- The action-parsing loop returns the interpretation of the first line
carrying a tag, and `("none", "")` when no line carries one. -/
theorem parseActionLines_eq_find (lines : List String) :
    parseActionLines lines =
      match lines.find? matchesTag with
      | some line => interpLine line
      | none => ("none", "") := by
  induction lines with
  | nil => rfl
  | cons line rest ih =>
    by_cases hm : pyStartswith (pyLower (pyStrip line)) "move:" = true
    · simp [parseActionLines, List.find?_cons, matchesTag, interpLine, hm]
    · by_cases hn : pyStartswith (pyLower (pyStrip line)) "nothing:" = true
      · simp [parseActionLines, List.find?_cons, matchesTag, interpLine, hm, hn]
      · by_cases hc : pyStartswith (pyLower (pyStrip line)) "converse:" = true
        · simp [parseActionLines, List.find?_cons, matchesTag, interpLine,
            hm, hn, hc]
        · simp [parseActionLines, List.find?_cons, matchesTag, interpLine,
            hm, hn, hc, ih]

/-- C6: the action parser scans the lines of the validated text top to bottom;
the first line whose stripped lower-cased form starts with `move:`, `nothing:`
or `converse:` determines the result — the matching tag names the action, and
for `move`/`converse` the target is the remainder of that line after its first
colon, stripped — later matching lines are ignored, and if no line matches the
result is `("none", "")`, with no error possible. -/
theorem parse_first_matching_line (text : String) :
    parseAction text =
      match (pySplitlines text).find? matchesTag with
      | some line => interpLine line
      | none => ("none", "") := by
  unfold parseAction
  exact parseActionLines_eq_find (pySplitlines text)

/-- A rejected validation always substitutes one of the two fixed fallbacks. -/
theorem validate_reject_text (raw : String)
    (h : (validate raw).failure ≠ none) :
    (validate raw).text = fallbackInsufficient ∨
    (validate raw).text = fallbackMalformed := by
  by_cases h2 : (pySplitNL (pyStrip raw)).length < 2
  · left
    simp only [validate]
    rw [if_pos h2]
  · by_cases ht : valid_starts.any
      (fun x => pyStartswith
        (pyLower (pyStrip ((pySplitNL (pyStrip raw)).getLastD ""))) x) = true
    · exfalso
      apply h
      simp only [validate]
      rw [if_neg h2, if_pos ht]
    · right
      simp only [validate]
      rw [if_neg h2, if_neg ht]

/-- C7: whenever the model output fails validation (either rejection branch),
the caller still receives a well-formed response whose action is `nothing` with
empty location — the substituted fallback text always parses to `nothing` — and
the rejection is recorded as exactly one additional `validation_failure` entry
in the event log. -/
theorem validation_failure_yields_nothing_action (st : ServerState)
    (data : GenerateRequest) (raw : String)
    (h : (validate raw).failure ≠ none) :
    (generate_response st data raw).1.action = "nothing" ∧
    (generate_response st data raw).1.location = "" ∧
    (generate_response st data raw).1.text = (validate raw).text ∧
    parseAction (generate_response st data raw).1.text = ("nothing", "") ∧
    ((generate_response st data raw).2.logs data.agent_id).countP
        (fun e => e.eventType == "validation_failure") =
      (st.logs data.agent_id).countP
        (fun e => e.eventType == "validation_failure") + 1 := by
  have hp : parseAction (validate raw).text = ("nothing", "") := by
    rcases validate_reject_text raw h with ht | ht <;> rw [ht] <;> decide
  have hfst := generate_response_fst st data raw
  refine ⟨?_, ?_, ?_, ?_, ?_⟩
  · rw [hfst]
    simp [hp]
  · rw [hfst]
    simp [hp]
    decide
  · rw [hfst]
  · rw [hfst]
    simpa using hp
  · rw [generate_response_logs_agent]
    rcases ho : (validate raw).failure with _ | r
    · exact absurd ho h
    · simp [ho, List.countP_append]

/-- Witness for `validation_failure_yields_nothing_action` at a concrete
malformed model output. -/
theorem validation_failure_yields_nothing_action_witness :
    (validate "I ponder.\nGo west").failure ≠ none ∧
    (generate_response initialState ⟨"A", "hi", "sys"⟩
        "I ponder.\nGo west").1.action = "nothing" :=
  ⟨by decide,
   (validation_failure_yields_nothing_action initialState ⟨"A", "hi", "sys"⟩
      "I ponder.\nGo west" (by decide)).1⟩

/-- The single-pass partition agrees with the two order-preserving filters. -/
theorem partitionFwd_eq_filter (l : List Message) :
    partitionFwd l =
      (l.filter isForwarded, l.filter fun m => !(isForwarded m)) := by
  induction l with
  | nil => rfl
  | cons m rest ih =>
    by_cases hm : isForwarded m = true
    · simp [partitionFwd, ih, List.filter_cons, hm]
    · simp [partitionFwd, ih, List.filter_cons, hm]

/-- C8: the spec-modelled prompt builder is a pure function that partitions the
session's messages into forwarded messages — rendered first, exactly as stored,
under a header line — and all other messages, each rendered as
`"<Role capitalized>: <content>"`, preserving each group's relative order
(filters preserve order), concatenating group one then group two, appending the
`"Assistant:"` cue and the fixed instruction line, and joining with newlines. -/
theorem build_prompt_spec_partitions (conversation : List Message) :
    build_prompt_spec conversation =
      String.intercalate "\n"
        ((if (conversation.filter isForwarded).isEmpty then []
          else "Conversation Context:" ::
            (conversation.filter isForwarded).map (fun m => m.content)) ++
          (conversation.filter fun m => !(isForwarded m)).map renderMsg ++
          ["Assistant:", trailerInstruction]) := by
  simp only [build_prompt_spec, partitionFwd_eq_filter]

/-- C9: the global reset unconditionally clears every session and every log
entry, is idempotent, and afterwards `get_or_create_session` treats any
previously-seen agent as brand new, re-inserting the system prompt. -/
theorem reset_system_clears_all (st : ServerState)
    (agent_id system_prompt : String) :
    (reset_system st).sessions agent_id = none ∧
    (reset_system st).logs agent_id = [] ∧
    reset_system (reset_system st) = reset_system st ∧
    (get_or_create_session (reset_system st) agent_id system_prompt).2.sessions
        agent_id = some [⟨"system", system_prompt⟩] ∧
    (get_or_create_session (reset_system st) agent_id system_prompt).1 =
      [⟨"system", system_prompt⟩] := by
  refine ⟨rfl, rfl, rfl, ?_, rfl⟩
  simp [get_or_create_session, reset_system, setSession]

/-- Appending one (`user`, `assistant`) pair to an alternating message list
keeps it alternating. -/
theorem altPairs_append_pair (u a : Message) (hu : u.role = "user")
    (ha : a.role = "assistant") :
    ∀ l : List Message, altPairs l = true → altPairs (l ++ [u, a]) = true
  | [], _ => by simp [altPairs, hu, ha]
  | [m], h => by simp [altPairs] at h
  | m1 :: m2 :: rest, h => by
    simp only [altPairs, Bool.and_eq_true] at h
    simp only [List.cons_append, altPairs, Bool.and_eq_true]
    exact ⟨h.1, altPairs_append_pair u a hu ha rest h.2⟩

/-- Every session of a reachable server state is a `system` message followed by
alternating (`user`, `assistant`) pairs. -/
theorem reachable_sessionShape (st : ServerState) (h : Reachable st) :
    ∀ a s, st.sessions a = some s → sessionShape s = true := by
  induction h with
  | init =>
    intro a s hs
    simp [initialState] at hs
  | gen st data out hst ih =>
    intro a s hs
    rw [generate_response_sessions] at hs
    by_cases ha : a = data.agent_id
    · rw [if_pos ha, Option.some_inj] at hs
      subst hs
      unfold baseConv
      cases hb : st.sessions data.agent_id with
      | none => simp [sessionShape, altPairs]
      | some s0 =>
        have hsh := ih data.agent_id s0 hb
        cases s0 with
        | nil => simp [sessionShape] at hsh
        | cons m rest =>
          simp only [sessionShape, Bool.and_eq_true] at hsh
          simp only [List.cons_append, sessionShape, Bool.and_eq_true]
          exact ⟨hsh.1, altPairs_append_pair _ _ rfl rfl rest hsh.2⟩
    · rw [if_neg ha] at hs
      exact ih a s hs
  | reset st hst ih =>
    intro a s hs
    simp [reset_system] at hs
  | clear st hst ih =>
    intro a s hs
    exact ih a s hs

/-- C10: each `/generate` call appends exactly two messages to the requesting
agent's session — a `user` message holding the request's input, then an
`assistant` message holding the validated (possibly fallback-substituted) text,
which equals the response's `text` field — and leaves every other agent's
session untouched; consequently every session of a reachable state is a
`system` message followed by alternating (`user`, `assistant`) pairs. -/
theorem generate_appends_user_assistant_pair (st : ServerState)
    (data : GenerateRequest) (out : String) (h : Reachable st) :
    (generate_response st data out).2.sessions data.agent_id =
      some (baseConv st data ++
        [⟨"user", data.user_input⟩, ⟨"assistant", (validate out).text⟩]) ∧
    (generate_response st data out).1.text = (validate out).text ∧
    (∀ b, b ≠ data.agent_id →
      (generate_response st data out).2.sessions b = st.sessions b) ∧
    (∀ a s, (generate_response st data out).2.sessions a = some s →
      sessionShape s = true) := by
  refine ⟨?_, ?_, ?_, ?_⟩
  · rw [generate_response_sessions]
    simp
  · rw [generate_response_fst]
  · intro b hb
    rw [generate_response_sessions, if_neg hb]
  · exact reachable_sessionShape _ (Reachable.gen st data out h)

/-- Witness for `generate_appends_user_assistant_pair`: one request against the
freshly started server. -/
theorem generate_appends_user_assistant_pair_witness :
    Reachable initialState ∧
    (generate_response initialState ⟨"A", "hi", "sys"⟩
        "ok.\nNOTHING: rest").2.sessions "A" =
      some (baseConv initialState ⟨"A", "hi", "sys"⟩ ++
        [⟨"user", "hi"⟩, ⟨"assistant", (validate "ok.\nNOTHING: rest").text⟩]) :=
  ⟨Reachable.init,
   (generate_appends_user_assistant_pair initialState ⟨"A", "hi", "sys"⟩
      "ok.\nNOTHING: rest" Reachable.init).1⟩
